import Mathlib

/-!
Verification of the Manan chapter-distillation pipeline.

This file gives a shallow embedding, in Lean, of the orchestration core of
the Manan reading-companion application: the extraction-service response
post-processing (`scanChapterForNuggets`), the document parsers
(`parsePdf`, `parseEpub`), and the distillation controller state held by the
`App` component (analysis cache, prefetch flag, selection ledger, filter
toggles, persisted session snapshot).  Asynchronous handlers are split at
their `await` points into a synchronous start step (state update plus the
request issued, if any) and a completion step applied when the response
resolves.  JavaScript runtime behaviour is modelled explicitly: absent JSON
fields are `Option`, truthiness coercions are spelled out, a thrown
exception is `Except.error`, and `Array.prototype.sort` (a stable sort) is
`List.mergeSort`.
-/

namespace Manan

/-- Nugget categories, from `NuggetType` in `types.ts`. -/
inductive NuggetType where
  | quote
  | learning
  | insight
deriving DecidableEq, Repr

/-- JavaScript `x || fallback` on an optional string: both `undefined` and
`""` are falsy and select the fallback. -/
def jsOrString (x : Option String) (fallback : String) : String :=
  match x with
  | some s => if s = "" then fallback else s
  | none => fallback

/-- JavaScript `!!x` on an optional boolean: `undefined` is falsy. -/
def jsTruthy (x : Option Bool) : Bool := x.getD false

/-- A nugget as it appears in the parsed JSON response of the extraction
service (the items of `rawData.nuggets`). -/
structure RawNugget where
  id : String
  type : NuggetType
  content : String
  source : Option String
deriving DecidableEq, Repr

/-- The parsed JSON body of an extraction response.  Every field may be
absent: `JSON.parse("{}")` yields an object with all of them absent, and the
code never validates the shape before using it. -/
structure RawData where
  title : Option String
  isBoilerplate : Option Bool
  isBackMatter : Option Bool
  nuggets : Option (List RawNugget)
deriving DecidableEq, Repr

/-- `JSON.parse("{}")`: an object with every expected field absent. -/
def emptyRawData : RawData :=
  { title := none, isBoilerplate := none, isBackMatter := none, nuggets := none }

/-- Outcome of `response.text` as far as `JSON.parse` is concerned: the body
can be absent or empty, syntactically malformed, or a parsed JSON object. -/
inductive ResponseBody where
  | empty
  | malformed
  | parsed (r : RawData)
deriving DecidableEq, Repr

/-- `const jsonStr = response.text || "{}"; JSON.parse(jsonStr.trim())`:
an empty body falls back to parsing `"{}"`; a malformed body throws. -/
def parseResponseText : ResponseBody → Except String RawData
  | .empty => .ok emptyRawData
  | .malformed => .error "SyntaxError: JSON.parse"
  | .parsed r => .ok r

/-- `response.usageMetadata`, when present. -/
structure UsageMetadata where
  promptTokenCount : Nat
  candidatesTokenCount : Nat
deriving DecidableEq, Repr

/-- The token usage reported back to the caller. -/
structure Usage where
  input : Nat
  output : Nat
deriving DecidableEq, Repr

/-- The fields of the extraction-service response that
`scanChapterForNuggets` reads. -/
structure ServiceResponse where
  usageMetadata : Option UsageMetadata
  body : ResponseBody
deriving DecidableEq, Repr

/-- A nugget after client-side post-processing (`BookNugget` in `types.ts`).
`tags` may be absent; readers use `nugget.tags || []`. -/
structure BookNugget where
  id : String
  type : NuggetType
  content : String
  source : Option String
  locationLabel : Option String
  sortIndex : Nat
  tags : Option (List String)
deriving DecidableEq, Repr

/-- `ChapterData`: the analysis of one segment, as cached and displayed.
`title` and the matter flags are optional because the non-skip branch of
`scanChapterForNuggets` spreads the raw JSON object, whose fields may be
absent at runtime. -/
structure ChapterData where
  title : Option String
  nuggets : List BookNugget
  isBackMatter : Option Bool
  isFrontMatter : Option Bool
deriving DecidableEq, Repr

/-- The value `scanChapterForNuggets` resolves with. -/
structure ScanResult where
  data : ChapterData
  usage : Usage
deriving DecidableEq, Repr

/-- `scanChapterForNuggets` (geminiService), from the awaited `response`
onward: usage defaulting, body parsing, the classification skip branch, the
nugget type filter, and the id/location/rank decoration.  The request
construction (prompt text and response schema) does not affect the returned
value beyond what the response carries and is not modelled.  A thrown
JavaScript exception is `Except.error`; in particular the non-skip branch
reads `rawData.nuggets.filter`, which throws a `TypeError` when the parsed
body has no `nuggets` field. -/
def scanChapterForNuggets (chapterIndex : Nat) (locationLabel : String)
    (analyzeBackMatter : Bool) (analyzeBoilerplate : Bool)
    (selectedTypes : List NuggetType) (response : ServiceResponse) :
    Except String ScanResult :=
  let usage := response.usageMetadata.getD ⟨0, 0⟩
  match parseResponseText response.body with
  | .error e => .error e
  | .ok rawData =>
    let skipBecauseBoilerplate := jsTruthy rawData.isBoilerplate && !analyzeBoilerplate
    let skipBecauseBackMatter := jsTruthy rawData.isBackMatter && !analyzeBackMatter
    if skipBecauseBoilerplate || skipBecauseBackMatter then
      .ok { data := { title := rawData.title,
                      nuggets := [],
                      isBackMatter := some (jsTruthy rawData.isBackMatter),
                      isFrontMatter := some (jsTruthy rawData.isBoilerplate) },
            usage := ⟨usage.promptTokenCount, usage.candidatesTokenCount⟩ }
    else
      match rawData.nuggets with
      | none => .error "TypeError: rawData.nuggets is undefined"
      | some ns =>
        let filteredNuggets := ns.filter (fun n => selectedTypes.contains n.type)
        .ok { data := { title := rawData.title,
                        nuggets := filteredNuggets.enum.map (fun p =>
                          { id := "c" ++ toString chapterIndex ++ "_" ++ p.2.id,
                            type := p.2.type,
                            content := p.2.content,
                            source := p.2.source,
                            locationLabel := some locationLabel,
                            sortIndex := p.1,
                            tags := none }),
                        isBackMatter := rawData.isBackMatter,
                        isFrontMatter := rawData.isBoilerplate },
              usage := ⟨usage.promptTokenCount, usage.candidatesTokenCount⟩ }

/-! ### Document parsers (`bookParser.ts`) -/

/-- The value the parsers resolve with: title, text chunks, location labels. -/
structure ParsedBook where
  title : String
  chunks : List String
  locations : List String
deriving DecidableEq, Repr

/-- The chunk texts built by `parsePdf`: pages are processed three at a time,
the extracted text of each page followed by `"\n\n"`. -/
def pdfChunks : List String → List String
  | [] => []
  | [a] => [a ++ "\n\n"]
  | [a, b] => [a ++ "\n\n" ++ b ++ "\n\n"]
  | a :: b :: c :: rest => (a ++ "\n\n" ++ b ++ "\n\n" ++ c ++ "\n\n") :: pdfChunks rest

/-- The location labels built by `parsePdf`: `Page i` for a single-page
chunk, `Pages i-end` otherwise, with `start` the 1-based number of the first
page of the current chunk. -/
def pdfLocations (start : Nat) : List String → List String
  | [] => []
  | [_] => ["Page " ++ toString start]
  | [_, _] => ["Pages " ++ toString start ++ "-" ++ toString (start + 1)]
  | _ :: _ :: _ :: rest =>
    ("Pages " ++ toString start ++ "-" ++ toString (start + 2)) :: pdfLocations (start + 3) rest

/-- `parsePdf` on a successfully loaded document, given the extracted text of
each page in order (page numbering starts at 1).  JavaScript
`String.replace` with a plain-string pattern replaces only the first
occurrence of `".pdf"`; `String.replace` here replaces every occurrence,
which differs only for pathological file names and is irrelevant to the
chunk/location structure. -/
def parsePdf (fileName : String) (pages : List String) : ParsedBook :=
  { title := fileName.replace ".pdf" "",
    chunks := pdfChunks pages,
    locations := pdfLocations 1 pages }

/-- JavaScript `String.prototype.endsWith`, at the character-list level
(extensionally the library `String.endsWith`; spelled out so that concrete
instances evaluate). -/
def jsEndsWith (s suffix : String) : Bool := suffix.data.isSuffixOf s.data

/-- JavaScript `String.prototype.trim`, at the character-list level: strip
leading and trailing whitespace. -/
def jsTrim (s : String) : String :=
  ⟨((s.data.dropWhile Char.isWhitespace).reverse.dropWhile Char.isWhitespace).reverse⟩

/-- One entry of the EPUB container: its file name and the text extracted
from its parsed HTML body (`doc.body.innerText || doc.body.textContent || ''`). -/
structure EpubFile where
  name : String
  text : String
deriving DecidableEq, Repr

/-- The loop body of `parseEpub`: visit the entries in order, keeping, as a
chunk labelled `Section k`, each `.xhtml`/`.html` entry whose trimmed text
is longer than 100 characters; `count` is the number of chunks kept so far. -/
def epubCollect (count : Nat) : List EpubFile → List String × List String
  | [] => ([], [])
  | f :: rest =>
    if (jsEndsWith f.name ".xhtml" || jsEndsWith f.name ".html")
        && decide ((jsTrim f.text).length > 100) then
      let p := epubCollect (count + 1) rest
      (f.text :: p.1, ("Section " ++ toString (count + 1)) :: p.2)
    else
      epubCollect count rest

/-- `parseEpub` on a successfully opened container: entries are visited in
sorted name order (`Object.keys(content.files).sort()`). -/
def parseEpub (fileName : String) (files : List EpubFile) : ParsedBook :=
  let sortedFiles := files.mergeSort (fun a b => decide (a.name ≤ b.name))
  let p := epubCollect 0 sortedFiles
  { title := fileName.replace ".epub" "",
    chunks := p.1,
    locations := p.2 }

/-! ### App component state (`App.tsx`) -/

/-- `Book` in `types.ts`. -/
structure Book where
  title : String
  chapters : List String
  chapterLocations : List String
deriving DecidableEq, Repr

/-- `NoteItem` in `types.ts`: a nugget promoted into the selection ledger. -/
structure NoteItem where
  id : String
  content : String
  type : NuggetType
  chapterTitle : String
  chapterIndex : Nat
  sortIndex : Nat
  locationLabel : Option String
  tags : List String
  source : Option String
deriving DecidableEq, Repr

/-- `UsageStats` in `types.ts`; the cost is modelled as an exact rational. -/
structure UsageStats where
  totalInputTokens : Nat
  totalOutputTokens : Nat
  estimatedCost : ℚ
deriving DecidableEq

/-- Per-million-token input rate (geminiService `COST_PER_1M_INPUT = 0.075`). -/
def COST_PER_1M_INPUT : ℚ := 75 / 1000

/-- Per-million-token output rate (geminiService `COST_PER_1M_OUTPUT = 0.30`). -/
def COST_PER_1M_OUTPUT : ℚ := 30 / 100

/-- `calculateCost` in geminiService. -/
def calculateCost (inputTokens outputTokens : Nat) : ℚ :=
  (inputTokens : ℚ) / 1000000 * COST_PER_1M_INPUT
    + (outputTokens : ℚ) / 1000000 * COST_PER_1M_OUTPUT

/-- The `cachedChapters` ref: a `Map` from segment index to `ChapterData`. -/
abbrev Cache := List (Nat × ChapterData)

/-- `Map.has`. -/
def cacheHas (c : Cache) (i : Nat) : Bool := c.any (fun e => e.1 == i)

/-- `Map.get`. -/
def cacheGet (c : Cache) (i : Nat) : Option ChapterData :=
  (c.find? (fun e => e.1 == i)).map (fun e => e.2)

/-- `Map.set`: insert or overwrite the entry for `i`. -/
def cacheSet (c : Cache) (i : Nat) (d : ChapterData) : Cache :=
  (i, d) :: c.filter (fun e => e.1 != i)

/-- The React state and refs of the `App` component that the distillation
pipeline reads and writes.  UI-only state (theme, nav visibility, search
and tag-editor input fields) is omitted: no claim concerns it and it does
not feed back into the pipeline. -/
structure AppState where
  book : Option Book
  currentChapterIndex : Nat
  currentChapterData : Option ChapterData
  notes : List NoteItem
  isAnalyzing : Bool
  error : Option String
  stats : UsageStats
  analyzeBackMatter : Bool
  analyzeBoilerplate : Bool
  selectedNuggetTypes : List NuggetType
  cachedChapters : Cache
  isPrefetching : Bool
deriving DecidableEq

/-- One call to `scanChapterForNuggets` as issued by the controller: the
segment index together with the filter values captured by the issuing
closure (the request also carries the segment text and location, which are
functions of the index and are omitted). -/
structure FetchRequest where
  index : Nat
  analyzeBackMatter : Bool
  analyzeBoilerplate : Bool
  selectedTypes : List NuggetType
deriving DecidableEq, Repr

/-- The request an extraction call issues from state `s` for segment
`index`. -/
def mkFetchRequest (s : AppState) (index : Nat) : FetchRequest :=
  ⟨index, s.analyzeBackMatter, s.analyzeBoilerplate, s.selectedNuggetTypes⟩

/-- `analyzeChapter`, synchronous prefix up to its `await`: on a cache hit,
display the cached analysis (the `setTimeout` prefetch scheduling is
modelled separately by `prefetchNextStart`); on a miss, enter the analyzing
state, clear the error, and issue the extraction request.  Returns the
updated state and the request issued, if any. -/
def analyzeChapterStart (index : Nat) (s : AppState) : AppState × Option FetchRequest :=
  match s.book with
  | none => (s, none)
  | some _ =>
    if cacheHas s.cachedChapters index then
      ({ s with currentChapterData := cacheGet s.cachedChapters index }, none)
    else
      ({ s with isAnalyzing := true, error := none }, some (mkFetchRequest s index))

/-- Accumulation of the usage of one extraction call into `stats` (the
`setStats` updater shared by `analyzeChapter` and `prefetchNext`). -/
def addUsage (st : UsageStats) (u : Usage) : UsageStats :=
  { totalInputTokens := st.totalInputTokens + u.input,
    totalOutputTokens := st.totalOutputTokens + u.output,
    estimatedCost := st.estimatedCost + calculateCost u.input u.output }

/-- `analyzeChapter`, success continuation after its `await` resolves:
commit the result to the displayed data, cache it under the requested
index, accumulate usage, and leave the analyzing state.  The code applies
this unconditionally — it never compares `index` against the current
`currentChapterIndex` before committing. -/
def analyzeChapterComplete (index : Nat) (result : ScanResult) (s : AppState) : AppState :=
  { s with currentChapterData := some result.data,
           cachedChapters := cacheSet s.cachedChapters index result.data,
           stats := addUsage s.stats result.usage,
           isAnalyzing := false }

/-- `prefetchNext`, synchronous prefix up to its `await`: guarded by the
presence of a book, the document bounds, the cache, and the single global
`isPrefetching` flag — there is no per-index in-flight record. -/
def prefetchNextStart (index : Nat) (s : AppState) : AppState × Option FetchRequest :=
  match s.book with
  | none => (s, none)
  | some b =>
    if decide (index ≥ b.chapters.length) || cacheHas s.cachedChapters index
        || s.isPrefetching then
      (s, none)
    else
      ({ s with isPrefetching := true }, some (mkFetchRequest s index))

/-- `prefetchNext`, success continuation: cache the result and accumulate
usage (the `finally` clears the prefetch flag). -/
def prefetchNextComplete (index : Nat) (result : ScanResult) (s : AppState) : AppState :=
  { s with cachedChapters := cacheSet s.cachedChapters index result.data,
           stats := addUsage s.stats result.usage,
           isPrefetching := false }

/-- The `useEffect` that drives analysis: it re-runs whenever `book`,
`currentChapterIndex`, or the identity of the memoised `analyzeChapter`
changes (in particular after any filter value changes), and calls
`analyzeChapter` on the current index unless an analysis is already in
flight. -/
def chapterEffect (s : AppState) : AppState × Option FetchRequest :=
  if s.book.isSome && !s.isAnalyzing then analyzeChapterStart s.currentChapterIndex s
  else (s, none)

/-- `jumpToChapter`: set the current segment index (the smooth scroll is
UI-only). -/
def jumpToChapter (index : Nat) (s : AppState) : AppState :=
  { s with currentChapterIndex := index }

/-- `toggleNuggetTypePreference`: flip membership of `t` in the selected
type set, clear the cache, and call `analyzeChapter` on the current index.
The immediate `analyzeChapter` call still closes over the previous filter
values (`setSelectedNuggetTypes` only takes effect on the next render), so
the request it issues carries the previous type set. -/
def toggleNuggetTypePreference (t : NuggetType) (s : AppState) :
    AppState × Option FetchRequest :=
  let next := if s.selectedNuggetTypes.contains t
    then s.selectedNuggetTypes.filter (fun x => x != t)
    else s.selectedNuggetTypes ++ [t]
  let cleared := { s with cachedChapters := [] }
  let step := analyzeChapterStart s.currentChapterIndex cleared
  ({ step.1 with selectedNuggetTypes := next }, step.2)

/-- The Metadata (boilerplate) toggle `onClick` handler: flip the flag and
clear the cache.  It does not itself call `analyzeChapter`. -/
def toggleBoilerplateClick (s : AppState) : AppState :=
  { s with analyzeBoilerplate := !s.analyzeBoilerplate, cachedChapters := [] }

/-- The Back-Matter toggle `onClick` handler: flip the flag and clear the
cache.  It does not itself call `analyzeChapter`. -/
def toggleBackMatterClick (s : AppState) : AppState :=
  { s with analyzeBackMatter := !s.analyzeBackMatter, cachedChapters := [] }

/-- The note `toggleNote` constructs when selecting a nugget, from the
nugget and the current chapter context
(`currentChapterData?.title || Section N` with `N` the 1-based index). -/
def mkNote (nugget : BookNugget) (currentChapterData : Option ChapterData)
    (currentChapterIndex : Nat) : NoteItem :=
  { id := nugget.id,
    content := nugget.content,
    type := nugget.type,
    chapterTitle := jsOrString (currentChapterData.bind (fun cd => cd.title))
      ("Section " ++ toString (currentChapterIndex + 1)),
    chapterIndex := currentChapterIndex,
    sortIndex := nugget.sortIndex,
    locationLabel := nugget.locationLabel,
    tags := nugget.tags.getD [],
    source := nugget.source }

/-- The `toggleNote` sort comparator, as a boolean "a sorts before or ties
with b": by chapter index, then by in-chapter rank. -/
def noteLe (a b : NoteItem) : Bool :=
  decide (a.chapterIndex < b.chapterIndex
    ∨ (a.chapterIndex = b.chapterIndex ∧ a.sortIndex ≤ b.sortIndex))

/-- `toggleNote`: remove the note carrying the id of the nugget if one
exists, else insert a freshly built note and re-sort the whole ledger by
`(chapterIndex, sortIndex)`.  `Array.prototype.sort` is a stable sort and is
modelled by the stable `List.mergeSort`. -/
def toggleNote (nugget : BookNugget) (currentChapterData : Option ChapterData)
    (currentChapterIndex : Nat) (notes : List NoteItem) : List NoteItem :=
  if notes.any (fun n => n.id == nugget.id) then
    notes.filter (fun n => n.id != nugget.id)
  else
    (notes ++ [mkNote nugget currentChapterData currentChapterIndex]).mergeSort noteLe

/-- `updateNuggetTags`: rewrite the tags of the matching nugget in the
*displayed* chapter data (when a chapter is displayed) and of the matching
note.  The `cachedChapters` map is not touched. -/
def updateNuggetTags (nuggetId : String) (tags : List String) (s : AppState) : AppState :=
  let s1 := match s.currentChapterData with
    | some cd =>
      { s with currentChapterData := some { cd with nuggets := cd.nuggets.map (fun n : BookNugget =>
          if n.id == nuggetId then { n with tags := some tags } else n) } }
    | none => s
  { s1 with notes := s1.notes.map (fun n : NoteItem =>
      if n.id == nuggetId then { n with tags := tags } else n) }

/-! ### Persisted session snapshot (`localStorage`) -/

/-- The JSON blob written under the progress key. -/
structure ProgressSnapshot where
  chapterIndex : Nat
  notes : List NoteItem
  stats : UsageStats
deriving DecidableEq

/-- The local key-value store, restricted to the progress keys. -/
abbrev Storage := List (String × ProgressSnapshot)

/-- `localStorage.getItem` (plus a successful `JSON.parse`). -/
def storageGet (st : Storage) (k : String) : Option ProgressSnapshot :=
  (st.find? (fun e => e.1 == k)).map (fun e => e.2)

/-- `localStorage.removeItem`. -/
def storageRemove (st : Storage) (k : String) : Storage :=
  st.filter (fun e => e.1 != k)

/-- `storageKey`: derived from the book title with every whitespace
character replaced by an underscore (`title.replace(/\s/g, '_')`), written
at the character-list level so that concrete instances evaluate. -/
def storageKey (b : Book) : String :=
  "manan_progress_" ++ String.mk (b.title.data.map (fun c => if c.isWhitespace then '_' else c))

/-- `reset`: clear the in-memory session state (book, notes, position,
displayed data, cache, usage stats).  The function body contains no local
storage operation. -/
def reset (s : AppState) : AppState :=
  { s with book := none,
           notes := [],
           currentChapterIndex := 0,
           currentChapterData := none,
           cachedChapters := [],
           stats := { totalInputTokens := 0, totalOutputTokens := 0, estimatedCost := 0 } }

/-- The "Close Book" user action: it invokes `reset` only, so the persistent
store is returned unchanged. -/
def closeBookAction (s : AppState) (store : Storage) : AppState × Storage :=
  (reset s, store)

/-- `downloadNotes` with the "clear current book session?" confirm answered
yes: a no-op when the ledger is empty; otherwise the snapshot under the
current storage key is removed (when a book is open) and the state is
reset.  The generated Markdown artifact is out of scope here. -/
def downloadNotesConfirmed (s : AppState) (store : Storage) : AppState × Storage :=
  if s.notes.isEmpty then (s, store)
  else
    let store1 := match s.book with
      | some b => storageRemove store (storageKey b)
      | none => store
    (reset s, store1)

/-! ### Concrete sample values -/

/-- A two-segment sample document. -/
def sampleBook : Book :=
  ⟨"My Book", ["text one", "text two"], ["Pages 1-3", "Pages 4-6"]⟩

/-- Zeroed usage statistics. -/
def zeroStats : UsageStats := ⟨0, 0, 0⟩

/-- The analysis that the in-flight fetch of claim C1 resolves with. -/
def c1Data : ChapterData := ⟨some "Segment 1 title", [], some false, some false⟩

def c1Result : ScanResult := ⟨c1Data, ⟨10, 5⟩⟩

/-- A state in which the fetch for segment 0 is still in flight while the
user has already navigated to segment 1 (sidebar and slider navigation are
not disabled during analysis). -/
def c1State : AppState :=
  { book := some sampleBook, currentChapterIndex := 1, currentChapterData := none,
    notes := [], isAnalyzing := true, error := none, stats := zeroStats,
    analyzeBackMatter := false, analyzeBoilerplate := false,
    selectedNuggetTypes := [.quote, .learning, .insight],
    cachedChapters := [], isPrefetching := false }

def c2Data : ChapterData := ⟨some "Segment 1", [], some false, some false⟩

/-- A state with an analysis already in flight for the displayed segment. -/
def c2State : AppState :=
  { book := some sampleBook, currentChapterIndex := 0, currentChapterData := none,
    notes := [], isAnalyzing := true, error := none, stats := zeroStats,
    analyzeBackMatter := false, analyzeBoilerplate := false,
    selectedNuggetTypes := [.quote, .learning, .insight],
    cachedChapters := [(1, c2Data)], isPrefetching := false }

/-- An idle state with a loaded book and a cached current segment. -/
def c2IdleState : AppState :=
  { book := some sampleBook, currentChapterIndex := 0, currentChapterData := some c2Data,
    notes := [], isAnalyzing := false, error := none, stats := zeroStats,
    analyzeBackMatter := false, analyzeBoilerplate := false,
    selectedNuggetTypes := [.quote, .learning, .insight],
    cachedChapters := [(0, c2Data)], isPrefetching := false }

def c3Data : ChapterData := ⟨some "Segment 1", [], some false, some false⟩

/-- A state right after the analysis of segment 0 completed: segment 0 is
cached and displayed, nothing is in flight. -/
def c3State : AppState :=
  { book := some sampleBook, currentChapterIndex := 0, currentChapterData := some c3Data,
    notes := [], isAnalyzing := false, error := none, stats := zeroStats,
    analyzeBackMatter := false, analyzeBoilerplate := false,
    selectedNuggetTypes := [.quote, .learning, .insight],
    cachedChapters := [(0, c3Data)], isPrefetching := false }

/-- The scheduled `prefetchNext(1)` fires. -/
def c3AfterPrefetch : AppState × Option FetchRequest := prefetchNextStart 1 c3State

/-- While the prefetch of segment 1 is still in flight, the user navigates
to segment 1 and the analysis effect runs. -/
def c3SecondStep : AppState × Option FetchRequest :=
  chapterEffect (jumpToChapter 1 c3AfterPrefetch.1)

def c4Nugget : BookNugget := ⟨"c0_n1", .quote, "X", none, some "Pages 1-3", 0, none⟩

def c4Data : ChapterData := ⟨some "Chapter One", [c4Nugget], some false, some false⟩

def c4Note : NoteItem := ⟨"c0_n1", "X", .quote, "Chapter One", 0, 0, some "Pages 1-3", [], none⟩

/-- A state in which segment 0 is cached and displayed and its nugget is
selected as a note. -/
def c4State : AppState :=
  { book := some sampleBook, currentChapterIndex := 0, currentChapterData := some c4Data,
    notes := [c4Note], isAnalyzing := false, error := none, stats := zeroStats,
    analyzeBackMatter := false, analyzeBoilerplate := false,
    selectedNuggetTypes := [.quote, .learning, .insight],
    cachedChapters := [(0, c4Data)], isPrefetching := false }

/-- The state after tagging the selected nugget with `philosophy`. -/
def c4After : AppState := updateNuggetTags "c0_n1" ["philosophy"] c4State

def c7Snapshot : ProgressSnapshot := ⟨1, [], zeroStats⟩

def c7Store : Storage := [(storageKey sampleBook, c7Snapshot)]

def c7Note : NoteItem := ⟨"c0_n2", "Y", .learning, "Chapter One", 0, 1, none, [], none⟩

/-- A session with one selected note and a persisted snapshot present. -/
def c7State : AppState :=
  { book := some sampleBook, currentChapterIndex := 1, currentChapterData := none,
    notes := [c7Note], isAnalyzing := false, error := none, stats := zeroStats,
    analyzeBackMatter := false, analyzeBoilerplate := false,
    selectedNuggetTypes := [.quote, .learning, .insight],
    cachedChapters := [], isPrefetching := false }

/-- A note created while segment 0 was displayed. -/
def c8Note : NoteItem := ⟨"a", "X", .quote, "Chapter One", 0, 0, none, [], none⟩

def c8OtherNote : NoteItem := ⟨"b", "Y", .learning, "Chapter One", 0, 1, none, [], none⟩

def c8Nugget : BookNugget := ⟨"a", .quote, "X", none, none, 0, none⟩

/-! ### Helper lemmas -/

/-- Transitivity of the ledger comparator. -/
theorem noteLe_trans (a b c : NoteItem) (hab : noteLe a b = true) (hbc : noteLe b c = true) :
    noteLe a c = true := by
  simp only [noteLe, decide_eq_true_eq] at *
  omega

/-- Totality of the ledger comparator. -/
theorem noteLe_total (a b : NoteItem) : (noteLe a b || noteLe b a) = true := by
  simp only [noteLe, Bool.or_eq_true, decide_eq_true_eq]
  omega

/-- The chunk and location lists of `parsePdf` grow in lockstep. -/
theorem pdfChunks_length_eq (ps : List String) :
    ∀ start, (pdfChunks ps).length = (pdfLocations start ps).length := by
  induction ps using pdfChunks.induct with
  | case1 => intro start; rfl
  | case2 a => intro start; rfl
  | case3 a b => intro start; rfl
  | case4 a b c rest ih => intro start; simpa [pdfChunks, pdfLocations] using ih (start + 3)

/-- `parsePdf` produces at least one chunk from a nonempty page list. -/
theorem pdfChunks_ne_nil (ps : List String) (h : ps ≠ []) : pdfChunks ps ≠ [] := by
  match ps with
  | [] => exact absurd rfl h
  | [a] => simp [pdfChunks]
  | [a, b] => simp [pdfChunks]
  | a :: b :: c :: rest => simp [pdfChunks]

/-- The chunk and location lists of `parseEpub` grow in lockstep. -/
theorem epubCollect_length_eq (files : List EpubFile) :
    ∀ count, (epubCollect count files).1.length = (epubCollect count files).2.length := by
  induction files with
  | nil => intro count; rfl
  | cons f rest ih =>
    intro count
    by_cases h : ((jsEndsWith f.name ".xhtml" || jsEndsWith f.name ".html")
        && decide ((jsTrim f.text).length > 100)) = true
    · simp [epubCollect, h, ih (count + 1)]
    · simp only [epubCollect]
      rw [if_neg h]
      exact ih count

/-! ### Claims -/

/-- C1: the claim states that the display step of `analyzeChapter` re-checks
whether a resolved extraction response is still for the currently selected
index before committing it to the displayed analysis.  The code has no such
check: the success continuation commits the result unconditionally (first
conjunct), and in the concrete state `c1State` — the fetch was issued for
index 0 and the user has since navigated to index 1 — the stale result for
index 0 still overwrites the displayed data. -/
theorem C1_stale_response_overwrites_display :
    (∀ (index : Nat) (r : ScanResult) (s : AppState),
      (analyzeChapterComplete index r s).currentChapterData = some r.data) ∧
    c1State.currentChapterIndex = 1 ∧
    (analyzeChapterComplete 0 c1Result c1State).currentChapterData = some c1Result.data :=
  ⟨fun _ _ _ => rfl, rfl, rfl⟩

/-- C2 (counterexample): toggling the Back-Matter filter while an analysis
is already in flight clears the cache but issues no re-fetch of the current
segment: the `onClick` handler only flips the flag and clears the cache,
and the driving analysis effect is skipped whenever `isAnalyzing` holds, so
the user action emits no extraction request — contradicting the claim that
every filter change immediately re-fetches the displayed segment. -/
theorem C2_matter_toggle_no_refetch_counterexample :
    c2State.cachedChapters ≠ [] ∧
    (toggleBackMatterClick c2State).cachedChapters = [] ∧
    (chapterEffect (toggleBackMatterClick c2State)).2 = none ∧
    (chapterEffect (toggleBackMatterClick c2State)).1.currentChapterData = none := by
  refine ⟨by decide, rfl, rfl, rfl⟩

/-- C2 (amended): every filter control clears the whole analysis cache.
The nugget-type toggle immediately re-runs `analyzeChapter` on the current
index, entering the analyzing state and issuing a fetch (which still
carries the previous type set).  The matter toggles re-fetch only through
the reactive analysis effect, which requires a loaded book and no analysis
already in flight. -/
theorem C2_filter_toggle_invalidation (s : AppState) (t : NuggetType)
    (hbook : s.book.isSome = true) (hidle : s.isAnalyzing = false) :
    ((toggleNuggetTypePreference t s).1.cachedChapters = [] ∧
     (toggleNuggetTypePreference t s).1.isAnalyzing = true ∧
     (toggleNuggetTypePreference t s).2 = some (mkFetchRequest s s.currentChapterIndex)) ∧
    ((toggleBackMatterClick s).cachedChapters = [] ∧
     (chapterEffect (toggleBackMatterClick s)).1.isAnalyzing = true ∧
     (chapterEffect (toggleBackMatterClick s)).2
       = some (mkFetchRequest (toggleBackMatterClick s) s.currentChapterIndex)) ∧
    ((toggleBoilerplateClick s).cachedChapters = [] ∧
     (chapterEffect (toggleBoilerplateClick s)).1.isAnalyzing = true ∧
     (chapterEffect (toggleBoilerplateClick s)).2
       = some (mkFetchRequest (toggleBoilerplateClick s) s.currentChapterIndex)) := by
  obtain ⟨b, hb⟩ := Option.isSome_iff_exists.mp hbook
  refine ⟨⟨?_, ?_, ?_⟩, ⟨?_, ?_, ?_⟩, ⟨?_, ?_, ?_⟩⟩ <;>
    simp [toggleNuggetTypePreference, toggleBackMatterClick, toggleBoilerplateClick,
      chapterEffect, analyzeChapterStart, cacheHas, mkFetchRequest, hb, hidle]

/-- C2 (witness): the amended statement at a concrete idle state. -/
theorem C2_filter_toggle_invalidation_witness :
    (toggleNuggetTypePreference NuggetType.quote c2IdleState).1.cachedChapters = [] ∧
    (toggleNuggetTypePreference NuggetType.quote c2IdleState).1.isAnalyzing = true ∧
    (toggleNuggetTypePreference NuggetType.quote c2IdleState).2
      = some (mkFetchRequest c2IdleState c2IdleState.currentChapterIndex) :=
  (C2_filter_toggle_invalidation c2IdleState NuggetType.quote rfl rfl).1

/-- C3: the claim states that at most one extraction request per index is
ever in flight, the controller tracking in-flight indices.  The code tracks
only the cache and the single global `isPrefetching` flag: in the concrete
run below, a prefetch request for segment 1 is outstanding
(`isPrefetching = true`, segment 1 uncached) when the user navigates to
segment 1, and the analysis effect issues a second extraction request for
the same segment. -/
theorem C3_duplicate_request_for_prefetched_index :
    c3AfterPrefetch.2.map FetchRequest.index = some 1 ∧
    c3AfterPrefetch.1.isPrefetching = true ∧
    c3SecondStep.2.map FetchRequest.index = some 1 :=
  ⟨rfl, rfl, rfl⟩

/-- C4 (counterexample): after `updateNuggetTags` adds the tag `philosophy`,
the note carries the tag but the analysis cache entry of the segment is
untouched, so re-reading the analysis from the cache (as navigation back to
the segment does) shows the nugget still without tags — contradicting the
claim that the cached analysis and the note carry the same tag list. -/
theorem C4_cache_tags_desync_counterexample :
    c4After.notes.map NoteItem.tags = [["philosophy"]] ∧
    cacheGet c4After.cachedChapters 0 = some c4Data ∧
    (analyzeChapterStart 0 c4After).1.currentChapterData.map
      (fun d => d.nuggets.map BookNugget.tags) = some [none] := by
  refine ⟨rfl, rfl, rfl⟩

/-- C4 (amended): `updateNuggetTags` keeps the *displayed* chapter data and
the selection ledger synchronized — every matching nugget in the displayed
data and every matching note ends up with exactly the new tag list — but it
leaves the analysis cache unchanged, so a cache re-read after navigating
away and back shows the pre-update tags. -/
theorem C4_updateTags_syncs_display_and_notes_not_cache
    (nuggetId : String) (tags : List String) (s : AppState) :
    (updateNuggetTags nuggetId tags s).cachedChapters = s.cachedChapters ∧
    (∀ cd, (updateNuggetTags nuggetId tags s).currentChapterData = some cd →
      ∀ n ∈ cd.nuggets, n.id = nuggetId → n.tags = some tags) ∧
    (∀ n ∈ (updateNuggetTags nuggetId tags s).notes, n.id = nuggetId → n.tags = tags) := by
  cases hcd : s.currentChapterData with
  | none =>
    refine ⟨by simp [updateNuggetTags, hcd], ?_, ?_⟩
    · intro cd hcd2 n hn hid
      simp [updateNuggetTags, hcd] at hcd2
    · intro n hn hid
      simp only [updateNuggetTags, hcd, List.mem_map] at hn
      obtain ⟨a, ha, rfl⟩ := hn
      by_cases h : a.id == nuggetId
      · simp [h]
      · rw [if_neg h] at hid ⊢
        exact absurd (by simp [hid]) h
  | some cd0 =>
    refine ⟨by simp [updateNuggetTags, hcd], ?_, ?_⟩
    · intro cd hcd2 n hn hid
      simp only [updateNuggetTags, hcd, Option.some.injEq] at hcd2
      rw [← hcd2] at hn
      simp only [List.mem_map] at hn
      obtain ⟨a, ha, rfl⟩ := hn
      by_cases h : a.id == nuggetId
      · simp [h]
      · rw [if_neg h] at hid ⊢
        exact absurd (by simp [hid]) h
    · intro n hn hid
      simp only [updateNuggetTags, hcd, List.mem_map] at hn
      obtain ⟨a, ha, rfl⟩ := hn
      by_cases h : a.id == nuggetId
      · simp [h]
      · rw [if_neg h] at hid ⊢
        exact absurd (by simp [hid]) h

/-- C4 (witness): the amended statement at a concrete state. -/
theorem C4_updateTags_witness :
    (updateNuggetTags "c0_n1" ["philosophy"] c4State).cachedChapters = c4State.cachedChapters :=
  (C4_updateTags_syncs_display_and_notes_not_cache "c0_n1" ["philosophy"] c4State).1

/-- C5: every nugget stored into the analysis result by
`scanChapterForNuggets` has a type contained in the selected type set — the
service response is filtered with `selectedTypes.includes` before the
result is returned (and then cached by the caller).  This holds for every
type set, in particular for every strict subset of the three types. -/
theorem C5_cached_nuggets_match_selected_types
    (chapterIndex : Nat) (locationLabel : String) (abm abp : Bool)
    (selectedTypes : List NuggetType) (response : ServiceResponse) (result : ScanResult)
    (hok : scanChapterForNuggets chapterIndex locationLabel abm abp selectedTypes response
      = .ok result)
    (n : BookNugget) (hn : n ∈ result.data.nuggets) :
    n.type ∈ selectedTypes := by
  unfold scanChapterForNuggets at hok
  cases hpb : parseResponseText response.body with
  | error e => rw [hpb] at hok; dsimp only at hok; exact absurd hok (by simp)
  | ok raw =>
    rw [hpb] at hok
    dsimp only at hok
    by_cases hskip : ((jsTruthy raw.isBoilerplate && !abp) || (jsTruthy raw.isBackMatter && !abm)) = true
    · rw [if_pos hskip] at hok
      cases hok
      simp at hn
    · rw [if_neg hskip] at hok
      cases hng : raw.nuggets with
      | none => rw [hng] at hok; exact absurd hok (by simp)
      | some ns =>
        rw [hng] at hok
        cases hok
        simp only [List.mem_map] at hn
        obtain ⟨p, hp, rfl⟩ := hn
        have h2 : p.2 ∈ ns.filter (fun x => selectedTypes.contains x.type) := by
          have h3 := List.mem_map_of_mem Prod.snd hp
          rwa [List.enum_map_snd] at h3
        have h4 := (List.mem_filter.mp h2).2
        simpa using h4

/-- C5 (witness): a concrete restricted extraction. -/
theorem C5_cached_nuggets_match_selected_types_witness :
    NuggetType.quote ∈ [NuggetType.quote] :=
  C5_cached_nuggets_match_selected_types 0 "Pages 1-3" false false [.quote]
    ⟨some ⟨10, 5⟩, .parsed ⟨some "T", some false, some false, some [⟨"n1", .quote, "X", none⟩]⟩⟩
    ⟨⟨some "T", [⟨"c0_n1", .quote, "X", none, some "Pages 1-3", 0, none⟩], some false, some false⟩,
      ⟨10, 5⟩⟩
    rfl
    ⟨"c0_n1", .quote, "X", none, some "Pages 1-3", 0, none⟩
    (by decide)

/-- C6: the claim states that an empty or unparsable response body
completes as an empty-result success with zero usage.  In the code an empty
body falls back to `JSON.parse("{}")`, after which the non-skip path
evaluates `rawData.nuggets.filter` on an absent field and throws a
`TypeError`; a malformed body throws in `JSON.parse` itself.  Either way
the call rejects, failing the triggering navigation. -/
theorem C6_empty_or_unparsable_body_throws (chapterIndex : Nat) (locationLabel : String)
    (abm abp : Bool) (selectedTypes : List NuggetType) (um : Option UsageMetadata) :
    scanChapterForNuggets chapterIndex locationLabel abm abp selectedTypes ⟨um, .empty⟩
      = .error "TypeError: rawData.nuggets is undefined" ∧
    scanChapterForNuggets chapterIndex locationLabel abm abp selectedTypes ⟨um, .malformed⟩
      = .error "SyntaxError: JSON.parse" :=
  ⟨rfl, rfl⟩

/-- C7 (counterexample): the "Close Book" reset clears the in-memory state
but the persisted snapshot for the current storage key is still present
afterwards — contradicting the claim that document reset deletes it. -/
theorem C7_reset_keeps_snapshot_counterexample :
    (closeBookAction c7State c7Store).1.book = none ∧
    storageGet (closeBookAction c7State c7Store).2 (storageKey sampleBook) = some c7Snapshot :=
  ⟨rfl, rfl⟩

/-- C7 (amended): document reset clears only the in-memory state (book,
notes, current index, displayed data, cache, usage stats) and leaves the
persistent store untouched; the persisted snapshot is deleted only by the
export-and-close confirm path of `downloadNotes`. -/
theorem C7_reset_clears_memory_only (s : AppState) (store : Storage) (b : Book)
    (hb : s.book = some b) (hnotes : s.notes ≠ []) :
    (closeBookAction s store).2 = store ∧
    ((closeBookAction s store).1.book = none ∧
      (closeBookAction s store).1.notes = [] ∧
      (closeBookAction s store).1.currentChapterIndex = 0 ∧
      (closeBookAction s store).1.currentChapterData = none ∧
      (closeBookAction s store).1.cachedChapters = [] ∧
      (closeBookAction s store).1.stats = ⟨0, 0, 0⟩) ∧
    (downloadNotesConfirmed s store).2 = storageRemove store (storageKey b) := by
  refine ⟨rfl, ⟨rfl, rfl, rfl, rfl, rfl, rfl⟩, ?_⟩
  cases hns : s.notes with
  | nil => exact absurd hns hnotes
  | cons x xs => simp [downloadNotesConfirmed, hns, hb]

/-- C7 (witness): the amended statement at a concrete session. -/
theorem C7_reset_witness :
    (downloadNotesConfirmed c7State c7Store).2 = storageRemove c7Store (storageKey sampleBook) :=
  (C7_reset_clears_memory_only c7State c7Store sampleBook rfl (by decide)).2.2

/-- C8 (counterexample): toggling the same nugget twice is not an
involution in general.  Here a note created while segment 0 was displayed
is toggled twice while segment 1 is current: the first toggle removes it
and the second rebuilds it from the *current* context, so the ledger ends
with `chapterIndex = 1` and a different chapter title instead of the prior
state. -/
theorem C8_toggle_not_involutive_counterexample :
    toggleNote c8Nugget none 1 (toggleNote c8Nugget none 1 [c8Note]) ≠ [c8Note] := by
  have h1 : toggleNote c8Nugget none 1 [c8Note] = [] := by decide
  have h2 : toggleNote c8Nugget none 1 [] = [mkNote c8Nugget none 1] := by
    unfold toggleNote
    simp only [List.any_nil, Bool.false_eq_true, if_false, List.nil_append]
    exact List.mergeSort_singleton _
  rw [h1, h2]
  decide

/-- C8 (amended): toggling a nugget whose id is *not* in the ledger twice
returns the ledger to exactly its prior state and order, provided the
ledger is sorted by `(chapterIndex, sortIndex)` — the invariant `toggleNote`
itself maintains.  (When the id is already selected, the second toggle
rebuilds the note from the current chapter context, which can change its
chapter fields and position, as the counterexample shows.) -/
theorem C8_toggle_involution_of_not_selected (nugget : BookNugget)
    (cd : Option ChapterData) (idx : Nat) (notes : List NoteItem)
    (hsorted : List.Pairwise (fun a b => noteLe a b = true) notes)
    (hfresh : ∀ n ∈ notes, n.id ≠ nugget.id) :
    toggleNote nugget cd idx (toggleNote nugget cd idx notes) = notes := by
  have hany : notes.any (fun n => n.id == nugget.id) = false := by
    simp only [List.any_eq_false, beq_iff_eq]
    exact hfresh
  have h1 : toggleNote nugget cd idx notes
      = (notes ++ [mkNote nugget cd idx]).mergeSort noteLe := by
    unfold toggleNote
    rw [hany]
    simp
  rw [h1]
  have hperm : ((notes ++ [mkNote nugget cd idx]).mergeSort noteLe).Perm
      (notes ++ [mkNote nugget cd idx]) := List.mergeSort_perm _ _
  have hmem : mkNote nugget cd idx ∈ (notes ++ [mkNote nugget cd idx]).mergeSort noteLe :=
    hperm.mem_iff.mpr (List.mem_append_right _ (List.mem_singleton_self _))
  have hany2 : ((notes ++ [mkNote nugget cd idx]).mergeSort noteLe).any
      (fun n => n.id == nugget.id) = true :=
    List.any_eq_true.mpr ⟨mkNote nugget cd idx, hmem, by simp [mkNote]⟩
  unfold toggleNote
  rw [hany2]
  simp only [if_true]
  have hfilter_notes : notes.filter (fun n => n.id != nugget.id) = notes := by
    rw [List.filter_eq_self]
    intro n hn
    simpa using hfresh n hn
  have hsubl : notes.Sublist ((notes ++ [mkNote nugget cd idx]).mergeSort noteLe) :=
    List.sublist_mergeSort noteLe_trans noteLe_total hsorted (List.sublist_append_left _ _)
  have hsub2 : notes.Sublist (((notes ++ [mkNote nugget cd idx]).mergeSort noteLe).filter
      (fun n => n.id != nugget.id)) := by
    have h := hsubl.filter (fun n => n.id != nugget.id)
    rwa [hfilter_notes] at h
  have hpermf : ((((notes ++ [mkNote nugget cd idx]).mergeSort noteLe).filter
      (fun n => n.id != nugget.id))).Perm notes := by
    have h := hperm.filter (fun n => n.id != nugget.id)
    rwa [List.filter_append, hfilter_notes,
      show ([mkNote nugget cd idx].filter (fun n => n.id != nugget.id)) = [] by simp [mkNote],
      List.append_nil] at h
  exact (hsub2.eq_of_length hpermf.length_eq.symm).symm

/-- C8 (witness): the amended statement at a concrete one-note ledger. -/
theorem C8_toggle_involution_witness :
    toggleNote c8Nugget none 0 (toggleNote c8Nugget none 0 [c8OtherNote]) = [c8OtherNote] :=
  C8_toggle_involution_of_not_selected c8Nugget none 0 [c8OtherNote]
    (by simp) (by decide)

/-- C9 (counterexample): a successfully opened EPUB container with no HTML
entry longer than 100 trimmed characters parses to zero segments,
contradicting the claimed invariant `len(segments) ≥ 1` (the navigation UI
even renders a dedicated "No segments detected in this file." branch for
this case). -/
theorem C9_epub_zero_segments_counterexample :
    (parseEpub "book.epub" [⟨"mimetype", "application/epub+zip"⟩]).chunks.length = 0 ∧
    ¬ 1 ≤ (parseEpub "book.epub" [⟨"mimetype", "application/epub+zip"⟩]).chunks.length := by
  have h : (parseEpub "book.epub" [⟨"mimetype", "application/epub+zip"⟩]).chunks = [] := by
    simp only [parseEpub, List.mergeSort_singleton]
    rfl
  rw [h]
  exact ⟨rfl, by decide⟩

/-- C9 (amended): for both parsers the segment and location lists always
have equal length; a PDF with at least one page yields at least one
segment, but an EPUB may yield zero segments when no HTML entry passes the
length filter. -/
theorem C9_parser_lengths (fileName : String) (pages : List String) (files : List EpubFile)
    (hpages : pages ≠ []) :
    (parsePdf fileName pages).chunks.length = (parsePdf fileName pages).locations.length ∧
    1 ≤ (parsePdf fileName pages).chunks.length ∧
    (parseEpub fileName files).chunks.length = (parseEpub fileName files).locations.length := by
  refine ⟨pdfChunks_length_eq pages 1, ?_, epubCollect_length_eq _ 0⟩
  have h := pdfChunks_ne_nil pages hpages
  cases hc : pdfChunks pages with
  | nil => exact absurd hc h
  | cons x xs => simp [parsePdf, hc]

/-- C9 (witness): the amended statement at a concrete one-page PDF and a
one-entry EPUB. -/
theorem C9_parser_lengths_witness :
    (parsePdf "a.pdf" ["page one"]).chunks.length = (parsePdf "a.pdf" ["page one"]).locations.length ∧
    1 ≤ (parsePdf "a.pdf" ["page one"]).chunks.length ∧
    (parseEpub "b.epub" [⟨"ch1.xhtml", "t"⟩]).chunks.length
      = (parseEpub "b.epub" [⟨"ch1.xhtml", "t"⟩]).locations.length :=
  C9_parser_lengths "a.pdf" ["page one"] [⟨"ch1.xhtml", "t"⟩] (by decide)

/-- C10: when the parsed response classifies the segment as boilerplate
front matter with the boilerplate filter off, or as back matter with the
back-matter filter off, `scanChapterForNuggets` returns an empty nugget
list while keeping the title and the (coerced) classification flags of the
service response, and the reported usage. -/
theorem C10_skip_branch_preserves_classification
    (chapterIndex : Nat) (locationLabel : String) (abm abp : Bool)
    (selectedTypes : List NuggetType) (um : Option UsageMetadata) (raw : RawData)
    (hskip : ((jsTruthy raw.isBoilerplate && !abp) || (jsTruthy raw.isBackMatter && !abm)) = true) :
    scanChapterForNuggets chapterIndex locationLabel abm abp selectedTypes ⟨um, .parsed raw⟩
      = .ok { data := { title := raw.title, nuggets := [],
                        isBackMatter := some (jsTruthy raw.isBackMatter),
                        isFrontMatter := some (jsTruthy raw.isBoilerplate) },
              usage := ⟨(um.getD ⟨0, 0⟩).promptTokenCount, (um.getD ⟨0, 0⟩).candidatesTokenCount⟩ } := by
  unfold scanChapterForNuggets
  simp [parseResponseText, hskip]

/-- C10 (witness): a concrete back-matter segment with the filter off. -/
theorem C10_skip_branch_witness :
    scanChapterForNuggets 3 "Pages 10-12" false false [.quote]
        ⟨some ⟨7, 2⟩, .parsed ⟨some "Index", some false, some true, some []⟩⟩
      = .ok { data := { title := some "Index", nuggets := [],
                        isBackMatter := some true, isFrontMatter := some false },
              usage := ⟨7, 2⟩ } :=
  C10_skip_branch_preserves_classification 3 "Pages 10-12" false false [.quote]
    (some ⟨7, 2⟩) ⟨some "Index", some false, some true, some []⟩ (by decide)

end Manan
